import Mathlib

/-!
Shallow embedding of the core query logic of `ZET.py` (a GTFS static +
realtime transit browser): the service-calendar resolver
(`active_services`), the static trip selector
(`get_static_trips_for_route`), the time parser (`time_str_to_seconds`),
the departure projector of `search_by_stop_id`, and the realtime
correlation engine (`correlate`).  Pandas dataframes are embedded as
lists of row structures; missing cells (NaN) are `Option.none`; Python
sets are `Finset String`.
-/

namespace ZET

/-- Embedding of `datetime.date`: a calendar date, ordered
lexicographically by (year, month, day) exactly as Python compares
`date` values. -/
structure PyDate where
  year : Nat
  month : Nat
  day : Nat
deriving DecidableEq, Repr

/-- Python `date.__le__`: lexicographic comparison of (year, month, day). -/
def PyDate.le (a b : PyDate) : Bool :=
  a.year < b.year ||
    (a.year == b.year &&
      (a.month < b.month || (a.month == b.month && a.day ≤ b.day)))

/-- Gregorian leap-year test, as in Python's `calendar.isleap`. -/
def isLeap (y : Nat) : Bool :=
  (y % 4 == 0 && y % 100 != 0) || y % 400 == 0

/-- Days before the first of month `m` in a non-leap year. -/
def cumDays : Nat → Nat
  | 1 => 0
  | 2 => 31
  | 3 => 59
  | 4 => 90
  | 5 => 120
  | 6 => 151
  | 7 => 181
  | 8 => 212
  | 9 => 243
  | 10 => 273
  | 11 => 304
  | _ => 334

/-- Embedding of Python `date.toordinal()`: day count in the proleptic
Gregorian calendar with 0001-01-01 ↦ 1. -/
def PyDate.toOrdinal (d : PyDate) : Nat :=
  let y := d.year - 1
  365 * y + y / 4 - y / 100 + y / 400 + cumDays d.month +
    (if 2 < d.month && isLeap d.year then 1 else 0) + d.day

/-- Embedding of Python `date.weekday()`: Monday = 0 .. Sunday = 6
(0001-01-01, ordinal 1, was a Monday). -/
def PyDate.weekday (d : PyDate) : Nat :=
  (d.toOrdinal + 6) % 7

/-- One row of the `calendar.txt` dataframe after the date-parsing step
of `active_services` (ZET.py lines 77-78): `pd.to_datetime(...,
errors='coerce')` turns a missing or unparsable `start_date`/`end_date`
cell into NaT, embedded as `none`.  The seven weekday columns are kept
as the raw strings of the csv (dtype=str); a missing cell stringifies
to something other than `"1"`. -/
structure CalRow where
  service_id : Option String
  monday : String
  tuesday : String
  wednesday : String
  thursday : String
  friday : String
  saturday : String
  sunday : String
  start_date_dt : Option PyDate
  end_date_dt : Option PyDate
deriving DecidableEq, Repr

/-- Embedding of `calendar[weekdays[target_weekday]]`: select the
weekday column by Python's `date.weekday()` index (ZET.py lines 72,
82). -/
def CalRow.weekdayCol (r : CalRow) : Nat → String
  | 0 => r.monday
  | 1 => r.tuesday
  | 2 => r.wednesday
  | 3 => r.thursday
  | 4 => r.friday
  | 5 => r.saturday
  | _ => r.sunday

/-- One row of the `calendar_dates.txt` dataframe after the date-parsing
step (ZET.py line 88): `date_dt` is `none` for a missing or unparsable
`date` cell (NaT never equals a target date in pandas). -/
structure CalDateRow where
  service_id : Option String
  date_dt : Option PyDate
  exception_type : String
deriving DecidableEq, Repr

/-- The row filter of ZET.py lines 80-82: the rule's [start, end] window
(with sentinel defaults `date(1900,1,1)` / `date(2900,1,1)` filled in
for NaT) contains the target date, and the weekday column selected by
`target_date.weekday()` holds the string "1". -/
def calRowValid (r : CalRow) (target : PyDate) : Bool :=
  PyDate.le (r.start_date_dt.getD ⟨1900, 1, 1⟩) target &&
    PyDate.le target (r.end_date_dt.getD ⟨2900, 1, 1⟩) &&
    decide (r.weekdayCol target.weekday = "1")

/-- ZET.py lines 75-84: the base active set collected from `calendar`
(`active.update(calendar[valid_date & valid_weekday]["service_id"]
.dropna() ...)`); a `None` table contributes nothing. -/
def base_services (calendar : Option (List CalRow)) (target : PyDate) :
    Finset String :=
  match calendar with
  | none => ∅
  | some cal =>
    ((cal.filter (fun r => calRowValid r target)).filterMap
      (·.service_id)).toFinset

/-- ZET.py line 89: the `calendar_dates` rows whose parsed date equals
the target date. -/
def exceptions_on (cds : List CalDateRow) (target : PyDate) :
    List CalDateRow :=
  cds.filter (fun e => decide (e.date_dt = some target))

/-- The service ids of the exception rows with the given
`exception_type` string (`astype(str) == t`, with `dropna()` on
service_id), as in ZET.py lines 91-92. -/
def exception_ids (exc : List CalDateRow) (t : String) : Finset String :=
  ((exc.filter (fun e => decide (e.exception_type = t))).filterMap
    (·.service_id)).toFinset

/-- ZET.py lines 70-94, `active_services(calendar, calendar_dates,
target_date)`: base set from the weekly `calendar` rules, then
`active.update(added)` followed by `active.difference_update(removed)`
for the exceptions dated exactly `target_date`, i.e.
(Base ∪ Added) \ Removed. -/
def active_services (calendar : Option (List CalRow))
    (calendar_dates : Option (List CalDateRow)) (target : PyDate) :
    Finset String :=
  let active := base_services calendar target
  match calendar_dates with
  | none => active
  | some cds =>
    let exc := exceptions_on cds target
    (active ∪ exception_ids exc "1") \ exception_ids exc "2"

/-- Sample calendar rule (runs every weekday column, valid all of 2024):
service "A". -/
def ruleA : CalRow :=
  { service_id := some "A", monday := "1", tuesday := "1",
    wednesday := "1", thursday := "1", friday := "1", saturday := "1",
    sunday := "1", start_date_dt := some ⟨2024, 1, 1⟩,
    end_date_dt := some ⟨2024, 12, 31⟩ }

/-- Sample exception rows: service "B" both added and removed on
2024-06-10. -/
def cdsB : List CalDateRow :=
  [{ service_id := some "B", date_dt := some ⟨2024, 6, 10⟩,
     exception_type := "1" },
   { service_id := some "B", date_dt := some ⟨2024, 6, 10⟩,
     exception_type := "2" }]

/-- Calendar rule with both date bounds missing and every weekday bit
set, used to probe the sentinel substitution. -/
def ruleNoBounds : CalRow :=
  { service_id := some "A", monday := "1", tuesday := "1",
    wednesday := "1", thursday := "1", friday := "1", saturday := "1",
    sunday := "1", start_date_dt := none, end_date_dt := none }

/-- Python `str.split(sep)` for a one-character separator, on the
character list: splits at every occurrence of `sep`; the empty string
yields `[[]]`, and a trailing separator yields a trailing empty part,
exactly as in Python. -/
def splitChar (sep : Char) : List Char → List (List Char)
  | [] => [[]]
  | c :: rest =>
    match splitChar sep rest with
    | [] => if c == sep then [[], []] else [[c]]
    | g :: gs => if c == sep then [] :: g :: gs else (c :: g) :: gs

/-- Python `str.split(sep)` lifted to `String`. -/
def pySplit (s : String) (sep : Char) : List String :=
  (splitChar sep s.data).map List.asString

/-- The whitespace characters Python's `int(s)` strips (space, tab,
newline, carriage return, vertical tab, form feed; the exotic unicode
spaces are not used by this program and are not modelled). -/
def isPySpace (c : Char) : Bool :=
  c == ' ' || c == '\t' || c == '\n' || c == '\r' ||
    c.toNat == 11 || c.toNat == 12

/-- ASCII decimal digit test. -/
def isAsciiDigit (c : Char) : Bool :=
  48 ≤ c.toNat && c.toNat ≤ 57

/-- Numeric value of a digit run, most significant first. -/
def digitsToNat (l : List Char) : Nat :=
  l.foldl (fun acc c => acc * 10 + (c.toNat - 48)) 0

/-- Embedding of Python's `int(s)` on a string: strip surrounding
whitespace, allow one leading `+` or `-`, then require a non-empty run
of decimal digits; anything else raises `ValueError`, embedded as
`none`.  (Python additionally allows underscores as digit separators;
no input of this program uses them and they are not modelled.) -/
def pyInt (s : String) : Option Int :=
  let t := (((s.data.dropWhile isPySpace).reverse.dropWhile
    isPySpace).reverse)
  let core := match t with
    | '-' :: rest => rest
    | '+' :: rest => rest
    | _ => t
  if core ≠ [] ∧ core.all isAsciiDigit then
    some (match t with
      | '-' :: _ => -(digitsToNat core : Int)
      | _ => (digitsToNat core : Int))
  else none

/-- ZET.py lines 268-279, `time_str_to_seconds(t)`: split on ":"; three
parts parse as h, m, s and yield h*3600 + m*60 + s; two parts parse as
h, m with s = 0; any other shape, or any part on which `int` raises,
yields None. -/
def time_str_to_seconds (t : String) : Option Int :=
  match pySplit t ':' with
  | [hs, ms, ss] =>
    match pyInt hs, pyInt ms, pyInt ss with
    | some h, some m, some s => some (h * 3600 + m * 60 + s)
    | _, _, _ => none
  | [hs, ms] =>
    match pyInt hs, pyInt ms with
    | some h, some m => some (h * 3600 + m * 60)
    | _, _ => none
  | _ => none

/-- One row of the `trips.txt` dataframe (the columns the core uses;
dtype=str, NaN cells are `none`; the merge key `trip_id` is kept
total). -/
structure TripRow where
  trip_id : String
  route_id : Option String
  service_id : Option String
  trip_headsign : Option String
deriving DecidableEq, Repr

/-- One row of the `stop_times.txt` dataframe (columns the core uses;
dtype=str, NaN cells are `none`). -/
structure StopTimeRow where
  trip_id : String
  stop_id : String
  stop_sequence : String
  arrival_time : Option String
  departure_time : Option String
deriving DecidableEq, Repr

/-- One row of the `stops.txt` dataframe. -/
structure StopRow where
  stop_id : String
  stop_name : Option String
deriving DecidableEq, Repr

/-- A row of the merged frame of ZET.py line 481 with the `dep_sec`
column of line 479: a stop_times row joined (left) with the
`trip_id`/`route_id`/`service_id` columns of trips. -/
structure MRow where
  trip_id : String
  stop_id : String
  departure_time : Option String
  dep_sec : Option Int
  route_id : Option String
  service_id : Option String
deriving DecidableEq, Repr

/-- An `MRow` with the `delta` column of ZET.py line 485. -/
structure DRow extends MRow where
  delta : Int
deriving DecidableEq, Repr

/-- ZET.py line 475: `stop_times[stop_times["stop_id"] == sid]`. -/
def sts_for_stop (stop_times : List StopTimeRow) (sid : String) :
    List StopTimeRow :=
  stop_times.filter (fun r => decide (r.stop_id = sid))

/-- ZET.py line 479: the `dep_sec` column — parse `departure_time` when
the cell is a string (`isinstance(t, str)`); a NaN cell gives None. -/
def dep_sec_of (r : StopTimeRow) : Option Int :=
  match r.departure_time with
  | some t => time_str_to_seconds t
  | none => none

/-- ZET.py line 481: `sts.merge(trips[["trip_id","route_id",
"service_id"]], on="trip_id", how="left")` — every stop row is kept; a
row is duplicated once per matching trip row, and gets NaN route/service
columns when no trip matches. -/
def merge_with_trips (sts : List StopTimeRow) (trips : List TripRow) :
    List MRow :=
  sts.flatMap (fun r =>
    match trips.filter (fun t => decide (t.trip_id = r.trip_id)) with
    | [] => [{ trip_id := r.trip_id, stop_id := r.stop_id,
               departure_time := r.departure_time,
               dep_sec := dep_sec_of r, route_id := none,
               service_id := none }]
    | ts => ts.map (fun t =>
        { trip_id := r.trip_id, stop_id := r.stop_id,
          departure_time := r.departure_time, dep_sec := dep_sec_of r,
          route_id := t.route_id, service_id := t.service_id }))

/-- ZET.py lines 483-484: `if "service_id" in merged.columns and
active: merged = merged[merged["service_id"].isin(active)]` — the
calendar filter is applied only when the active set is non-empty
(Python truthiness of a set); a row whose `service_id` is NaN is
dropped by `isin`.  The `service_id` column is always present here. -/
def apply_active_filter (active : Finset String) (rows : List MRow) :
    List MRow :=
  if active = ∅ then rows
  else
    rows.filter (fun m =>
      match m.service_id with
      | some s => decide (s ∈ active)
      | none => false)

/-- ZET.py line 485: the `delta` column — `x - sec` for a parsed
departure, sentinel 999999 for a None `dep_sec`. -/
def add_delta (sec : Int) (rows : List MRow) : List DRow :=
  rows.map (fun m =>
    { toMRow := m,
      delta := match m.dep_sec with
        | some x => x - sec
        | none => 999999 })

/-- The merged rows with their delta column, for a stop query at
`sid` with query seconds `sec` (ZET.py lines 475-485). -/
def departure_rows (stop_times : List StopTimeRow)
    (trips : List TripRow) (active : Finset String) (sid : String)
    (sec : Int) : List DRow :=
  add_delta sec
    (apply_active_filter active
      (merge_with_trips (sts_for_stop stop_times sid) trips))

/-- ZET.py line 486 before truncation:
`merged[merged["delta"] >= -300].sort_values("delta")` — the rows
passing the grace-window filter, sorted ascending by delta
(`sort_values` is an ascending comparison sort; it is embedded as
insertion sort, the claims do not depend on the order of ties). -/
def kept_departures (stop_times : List StopTimeRow)
    (trips : List TripRow) (active : Finset String) (sid : String)
    (sec : Int) : List DRow :=
  ((departure_rows stop_times trips active sid sec).filter
    (fun d => decide (-300 ≤ d.delta))).insertionSort
    (fun a b => a.delta ≤ b.delta)

/-- ZET.py line 486: `.head(50)` — the projector's output. -/
def upcoming_departures (stop_times : List StopTimeRow)
    (trips : List TripRow) (active : Finset String) (sid : String)
    (sec : Int) : List DRow :=
  (kept_departures stop_times trips active sid sec).take 50

/-- ZET.py lines 100-102: candidate trips of the route, restricted to
the active services only when the active set is non-empty (`if
"service_id" in cand.columns and active:`; the column is always
present here). -/
def selected_trips (trips : List TripRow) (route_id : String)
    (active : Finset String) : List TripRow :=
  let cand := trips.filter (fun t => decide (t.route_id = some route_id))
  if active = ∅ then cand
  else
    cand.filter (fun t =>
      match t.service_id with
      | some s => decide (s ∈ active)
      | none => false)

/-- One entry of the per-trip stop list built by
`get_static_trips_for_route` (ZET.py line 115). -/
structure StopEntry where
  stop_id : String
  stop_name : Option String
  arrival : Option String
  departure : Option String
  seq : String
deriving DecidableEq, Repr

/-- One output record of `get_static_trips_for_route`
(ZET.py line 116). -/
structure TripSchedule where
  trip_id : String
  headsign : Option String
  stops : List StopEntry
deriving DecidableEq, Repr

/-- ZET.py lines 104-106: `stops.set_index("stop_id")["stop_name"]
.to_dict()` — a duplicate stop_id keeps the last row — then
`.get(stop_id, stop_id)` (line 114). -/
def stop_name_for (stops : List StopRow) (sid : String) :
    Option String :=
  match stops.reverse.find? (fun s => decide (s.stop_id = sid)) with
  | some row => row.stop_name
  | none => some sid

/-- ZET.py lines 96-117, `get_static_trips_for_route`: None trips or
stop_times give an empty result; otherwise, for each selected trip,
its stop_times rows sorted by the `stop_sequence` string
(`sort_values("stop_sequence")` on a dtype=str column), with stop
names resolved through the stops table, falling back to the raw
stop_id. -/
def get_static_trips_for_route (trips : Option (List TripRow))
    (stop_times : Option (List StopTimeRow))
    (stops : List StopRow) (route_id : String)
    (active : Finset String) : List TripSchedule :=
  match trips, stop_times with
  | some tl, some stl =>
    (selected_trips tl route_id active).map (fun t =>
      { trip_id := t.trip_id, headsign := t.trip_headsign,
        stops := ((stl.filter (fun s => decide (s.trip_id = t.trip_id))).insertionSort
            (fun a b => a.stop_sequence ≤ b.stop_sequence)).map
          (fun s =>
            { stop_id := s.stop_id,
              stop_name := stop_name_for stops s.stop_id,
              arrival := s.arrival_time, departure := s.departure_time,
              seq := s.stop_sequence }) })
  | _, _ => []

/-- Sample stop-time row whose departure_time does not parse. -/
def stBad : StopTimeRow :=
  { trip_id := "T", stop_id := "S", stop_sequence := "1",
    arrival_time := none, departure_time := some "bogus" }

/-- Sample stop-time row departing at 08:05:00. -/
def stGood : StopTimeRow :=
  { trip_id := "T", stop_id := "S", stop_sequence := "2",
    arrival_time := none, departure_time := some "08:05:00" }

/-- Sample trips row joining `stBad`/`stGood` to route "R",
service "X". -/
def tripT : TripRow :=
  { trip_id := "T", route_id := some "R", service_id := some "X",
    trip_headsign := none }

/-- Python `str.lower()`, char by char (the vehicle ids this program
compares are ASCII; the locale-independent unicode lowering beyond
`Char.toLower` is not modelled). -/
def pyLower (s : String) : String :=
  (s.data.map Char.toLower).asString

/-- A GTFS-realtime trip descriptor as `correlate` reads it: only
`trip_id` is consulted (proto string fields default to ""). -/
structure TripDescriptor where
  trip_id : String
deriving DecidableEq, Repr

/-- A stop_time_update entry: `correlate` only reads `stop_id`. -/
structure RtStopTimeUpdate where
  stop_id : String
deriving DecidableEq, Repr

/-- A trip_update sub-message: the optional trip descriptor
(`HasField("trip")`) and the stop_time_update list. -/
structure RtTripUpdate where
  trip : Option TripDescriptor
  stop_time_update : List RtStopTimeUpdate
deriving DecidableEq, Repr

/-- The vehicle descriptor inside a vehicle position: `correlate`
reads `.id`. -/
structure VehicleDescriptor where
  id : String
deriving DecidableEq, Repr

/-- A vehicle sub-message: optional trip descriptor and optional
vehicle descriptor (the `getattr(getattr(veh, "vehicle", None), "id",
None)` chain yields `none` when the descriptor is absent). -/
structure VehiclePosition where
  trip : Option TripDescriptor
  vehicle : Option VehicleDescriptor
deriving DecidableEq, Repr

/-- A feed entity: id plus optional trip_update / vehicle sub-messages
(`entity.HasField(...)`, ZET.py lines 124-125). -/
structure FeedEntity where
  id : String
  trip_update : Option RtTripUpdate
  vehicle : Option VehiclePosition
deriving DecidableEq, Repr

/-- Python truthiness of an optional string argument (`if route_id:`):
false for None and for the empty string. -/
def truthy : Option String → Bool
  | some s => decide (s ≠ "")
  | none => false

/-- ZET.py line 121: `trips.set_index('trip_id')['route_id'].to_dict()
if trips is not None and ... else {}` — a duplicate trip_id keeps the
last row.  The outer `Option` is key presence (`trip_id in
trip_to_route`), the inner one the route_id cell (NaN possible). -/
def trip_to_route_dict (trips : Option (List TripRow)) (tid : String) :
    Option (Option String) :=
  match trips with
  | none => none
  | some tl =>
    (tl.reverse.find? (fun t => decide (t.trip_id = tid))).map
      (·.route_id)

/-- ZET.py lines 127-131: the resolved trip descriptor — prefer the
trip-update's trip reference, else the vehicle's, else none. -/
def resolve_trip (e : FeedEntity) : Option TripDescriptor :=
  match e.trip_update.bind (·.trip) with
  | some t => some t
  | none => e.vehicle.bind (·.trip)

/-- ZET.py lines 134-147: whether an entity matches.  The three filter
arguments are tried in sequence: `if route_id: ... elif vehicle_id and
veh is not None: ... elif stop_id and tu is not None: ...`. -/
def entity_matched (trips : Option (List TripRow))
    (route_id vehicle_id stop_id : Option String) (e : FeedEntity) :
    Bool :=
  let trip_id := (resolve_trip e).map (·.trip_id)
  if truthy route_id then
    match trip_id with
    | some tid => decide (trip_to_route_dict trips tid = some route_id)
    | none => false
  else if truthy vehicle_id && e.vehicle.isSome then
    match e.vehicle with
    | some v =>
      let vid := v.vehicle.map (·.id)
      truthy vid &&
        decide (pyLower (vid.getD "") = pyLower (vehicle_id.getD ""))
    | none => false
  else if truthy stop_id && e.trip_update.isSome then
    match e.trip_update with
    | some tu =>
      tu.stop_time_update.any
        (fun stu => decide (stu.stop_id = stop_id.getD ""))
    | none => false
  else false

/-- The record appended for a matched entity (ZET.py line 150). -/
structure MatchRecord where
  entity_id : String
  trip_id : Option String
  trip_update : Option RtTripUpdate
  vehicle : Option VehiclePosition
deriving DecidableEq, Repr

/-- ZET.py line 150: the match record of an entity. -/
def mk_match (e : FeedEntity) : MatchRecord :=
  { entity_id := e.id, trip_id := (resolve_trip e).map (·.trip_id),
    trip_update := e.trip_update, vehicle := e.vehicle }

/-- ZET.py lines 119-152, `correlate(feed, trips, route_id, vehicle_id,
stop_id)`: scan the feed entities in order and append a match record
for each matched one. -/
def correlate (feed : List FeedEntity) (trips : Option (List TripRow))
    (route_id vehicle_id stop_id : Option String) : List MatchRecord :=
  match feed with
  | [] => []
  | e :: rest =>
    if entity_matched trips route_id vehicle_id stop_id e then
      mk_match e :: correlate rest trips route_id vehicle_id stop_id
    else
      correlate rest trips route_id vehicle_id stop_id

/-- Sample feed entities: `entV` carries vehicle "ZG-8801-GR" on trip
"T1"; `entOther` carries vehicle "ZG-0000-AA" on trip "T2"; `entBare`
has no sub-messages at all. -/
def entV : FeedEntity :=
  { id := "1",
    trip_update := some { trip := some { trip_id := "T1" },
                          stop_time_update := [{ stop_id := "S" }] },
    vehicle := some { trip := some { trip_id := "T1" },
                      vehicle := some { id := "ZG-8801-GR" } } }

/-- Second sample entity, on trip "T2" with vehicle "ZG-0000-AA". -/
def entOther : FeedEntity :=
  { id := "2",
    trip_update := some { trip := some { trip_id := "T2" },
                          stop_time_update := [] },
    vehicle := some { trip := none,
                      vehicle := some { id := "ZG-0000-AA" } } }

/-- Third sample entity with neither sub-message. -/
def entBare : FeedEntity :=
  { id := "3", trip_update := none, vehicle := none }

/-- Sample trips table: "T1" on route "R1", "T2" on route "R2". -/
def tripsRT : List TripRow :=
  [{ trip_id := "T1", route_id := some "R1", service_id := some "X",
     trip_headsign := none },
   { trip_id := "T2", route_id := some "R2", service_id := some "X",
     trip_headsign := none }]

/-- Sample non-empty active-service set. -/
def activeX : Finset String := {"X"}

/-- Sample merged row whose service "Y" is not in `activeX`. -/
def mrowY : MRow :=
  { trip_id := "T", stop_id := "S", departure_time := none,
    dep_sec := none, route_id := some "R", service_id := some "Y" }

end ZET

open ZET

/-- C1: for every target date, the set returned by `active_services`
equals (Base ∪ Added) \ Removed, where Base is exactly the service_ids
of calendar rules whose weekday column for the date's weekday is "1"
and whose [start_date, end_date] window (sentinel defaults substituted
for missing dates) contains the date, and Added/Removed are the
service_ids of exception rows dated exactly the target date with
exception_type "1"/"2". -/
theorem c1_active_services_characterization (cal : List CalRow)
    (cds : List CalDateRow) (target : PyDate) (s : String) :
    s ∈ active_services (some cal) (some cds) target ↔
      ((∃ r ∈ cal, r.service_id = some s ∧
          PyDate.le (r.start_date_dt.getD ⟨1900, 1, 1⟩) target = true ∧
          PyDate.le target (r.end_date_dt.getD ⟨2900, 1, 1⟩) = true ∧
          r.weekdayCol target.weekday = "1")
        ∨ (∃ e ∈ cds, e.service_id = some s ∧ e.date_dt = some target ∧
            e.exception_type = "1"))
      ∧ ¬ ∃ e ∈ cds, e.service_id = some s ∧ e.date_dt = some target ∧
          e.exception_type = "2" := by
  simp only [active_services, base_services, exceptions_on,
    exception_ids, calRowValid, Finset.mem_sdiff, Finset.mem_union,
    List.mem_toFinset, List.mem_filterMap, List.mem_filter,
    Bool.and_eq_true, decide_eq_true_eq]
  aesop

/-- C1 witness: the characterization evaluated on the spec's end-to-end
scenario (rule for service "A" valid through 2024, service "B" added
then removed on 2024-06-10, target 2024-06-10, a Monday): "A" is
active. -/
theorem c1_active_services_characterization_witness :
    "A" ∈ active_services (some [ruleA]) (some cdsB) ⟨2024, 6, 10⟩ :=
  (c1_active_services_characterization [ruleA] cdsB ⟨2024, 6, 10⟩
    "A").mpr (by decide)

/-- C2: a service id carrying both an Added (exception_type "1") and a
Removed (exception_type "2") exception on the target date is excluded
from the resolver's result, whatever the base calendar and whatever the
order of the exception rows: removal is applied after addition
unconditionally. -/
theorem c2_removed_dominates_added (calendar : Option (List CalRow))
    (cds : List CalDateRow) (target : PyDate) (s : String)
    (_hadd : ∃ e ∈ cds, e.service_id = some s ∧ e.date_dt = some target ∧
      e.exception_type = "1")
    (hrem : ∃ e ∈ cds, e.service_id = some s ∧ e.date_dt = some target ∧
      e.exception_type = "2") :
    s ∉ active_services calendar (some cds) target := by
  intro hmem
  obtain ⟨e, he, hs, hd, ht⟩ := hrem
  have hin : s ∈ exception_ids (exceptions_on cds target) "2" := by
    simp only [exception_ids, exceptions_on, List.mem_toFinset,
      List.mem_filterMap, List.mem_filter, decide_eq_true_eq]
    exact ⟨e, ⟨⟨he, hd⟩, ht⟩, hs⟩
  simp only [active_services, Finset.mem_sdiff] at hmem
  exact hmem.2 hin

/-- C2 witness: service "B", added and removed on 2024-06-10, is not in
the active set for that date. -/
theorem c2_removed_dominates_added_witness :
    "B" ∉ active_services (some [ruleA]) (some cdsB) ⟨2024, 6, 10⟩ :=
  c2_removed_dominates_added (some [ruleA]) cdsB ⟨2024, 6, 10⟩ "B"
    (by decide) (by decide)

/-- C3 counterexample: the claim says the sentinel for a missing
end_date is 2900-12-31, so a rule with no end bound is never excluded
for any date up to 2900-12-31.  The code (ZET.py line 81) fills NaT
end dates with `date(2900,1,1)` instead: for target 2900-06-15 (which
is ≤ 2900-12-31) the rule `ruleNoBounds` — every weekday bit set, both
bounds missing — is excluded. -/
theorem c3_counterexample :
    ruleNoBounds.end_date_dt = none ∧
      PyDate.le ⟨2900, 6, 15⟩ ⟨2900, 12, 31⟩ = true ∧
      "A" ∉ active_services (some [ruleNoBounds]) none ⟨2900, 6, 15⟩ := by
  decide

/-- C3 (amended): for a calendar rule with a missing start_date or
end_date, the resolver substitutes the sentinels earliest = 1900-01-01
and latest = 2900-01-01 on the missing side, so absence of a bound
never excludes the rule for any date from 1900-01-01 (missing start)
up to 2900-01-01 (missing end), provided the weekday bit is set and
the other bound admits the date. -/
theorem c3_sentinel_bounds (cal : List CalRow) (target : PyDate)
    (r : CalRow) (s : String) (hr : r ∈ cal)
    (hs : r.service_id = some s)
    (hw : r.weekdayCol target.weekday = "1") :
    (r.start_date_dt = none → PyDate.le ⟨1900, 1, 1⟩ target = true →
      PyDate.le target (r.end_date_dt.getD ⟨2900, 1, 1⟩) = true →
      s ∈ active_services (some cal) none target)
    ∧ (r.end_date_dt = none →
      PyDate.le (r.start_date_dt.getD ⟨1900, 1, 1⟩) target = true →
      PyDate.le target ⟨2900, 1, 1⟩ = true →
      s ∈ active_services (some cal) none target) := by
  constructor
  · intro hnone h1 h2
    simp only [active_services, base_services, List.mem_toFinset,
      List.mem_filterMap, List.mem_filter]
    refine ⟨r, ⟨hr, ?_⟩, hs⟩
    simp [calRowValid, hnone, h1, h2, hw]
  · intro hnone h1 h2
    simp only [active_services, base_services, List.mem_toFinset,
      List.mem_filterMap, List.mem_filter]
    refine ⟨r, ⟨hr, ?_⟩, hs⟩
    simp [calRowValid, hnone, h1, h2, hw]

/-- C3 witness: `ruleNoBounds` (missing end date) is active on
2024-06-10, a date within the code's sentinel window. -/
theorem c3_sentinel_bounds_witness :
    "A" ∈ active_services (some [ruleNoBounds]) none ⟨2024, 6, 10⟩ :=
  (c3_sentinel_bounds [ruleNoBounds] ⟨2024, 6, 10⟩ ruleNoBounds "A"
    (by decide) (by decide) (by decide)).2 (by decide) (by decide)
    (by decide)

/-- C6: the service-time parser maps an H:M:S string to
h*3600 + m*60 + s seconds since midnight, supporting the GTFS
service-day convention where the hour may exceed 24; in particular
"25:10:00" ↦ 90600 and "08:05:00" ↦ 29100. -/
theorem c6_time_str_to_seconds :
    (∀ (t hs ms ss : String) (h m s : Int),
      pySplit t ':' = [hs, ms, ss] →
      pyInt hs = some h → pyInt ms = some m → pyInt ss = some s →
      time_str_to_seconds t = some (h * 3600 + m * 60 + s)) ∧
    time_str_to_seconds "25:10:00" = some 90600 ∧
    time_str_to_seconds "08:05:00" = some 29100 := by
  refine ⟨?_, by decide, by decide⟩
  intro t hs ms ss h m s hsplit hh hm hs2
  simp [time_str_to_seconds, hsplit, hh, hm, hs2]

/-- C6 witness: the general H:M:S formula applied at "26:07:09". -/
theorem c6_time_str_to_seconds_witness :
    time_str_to_seconds "26:07:09" = some 94029 :=
  c6_time_str_to_seconds.1 "26:07:09" "26" "07" "09" 26 7 9 (by decide)
    (by decide) (by decide) (by decide)

/-- C4: for a stop query with query-seconds Q, a merged row is kept iff
its delta ≥ −300, a row with parsed departure seconds D has delta
D − Q, the kept rows are sorted ascending by delta, and the output has
at most 50 rows. -/
theorem c4_departure_projection (stop_times : List StopTimeRow)
    (trips : List TripRow) (active : Finset String) (sid : String)
    (sec : Int) :
    (∀ d, d ∈ kept_departures stop_times trips active sid sec ↔
        d ∈ departure_rows stop_times trips active sid sec ∧
          -300 ≤ d.delta) ∧
    (∀ d (D : Int), d ∈ departure_rows stop_times trips active sid sec →
        d.dep_sec = some D → d.delta = D - sec) ∧
    (upcoming_departures stop_times trips active sid sec).Pairwise
      (fun a b => a.delta ≤ b.delta) ∧
    (upcoming_departures stop_times trips active sid sec).length ≤ 50 := by
  refine ⟨?_, ?_, ?_, ?_⟩
  · intro d
    simp [kept_departures, List.mem_insertionSort, List.mem_filter]
  · intro d D hmem hdep
    simp only [departure_rows, add_delta, List.mem_map] at hmem
    obtain ⟨m, hm, rfl⟩ := hmem
    simp only at hdep
    simp [hdep]
  · haveI : IsTotal DRow (fun a b => a.delta ≤ b.delta) :=
      ⟨fun a b => Int.le_total _ _⟩
    haveI : IsTrans DRow (fun a b => a.delta ≤ b.delta) :=
      ⟨fun _ _ _ hab hbc => le_trans hab hbc⟩
    simp only [upcoming_departures, kept_departures]
    exact List.Pairwise.sublist (List.take_sublist 50 _)
      (List.sorted_insertionSort _ _)
  · simp only [upcoming_departures]
    exact List.length_take_le 50 _

/-- C4 witness: at stop "S" with query seconds 0, the 08:05:00 row
(delta 29100) is kept, and the output length bound holds. -/
theorem c4_departure_projection_witness :
    ({ trip_id := "T", stop_id := "S", departure_time := some "08:05:00",
       dep_sec := some 29100, route_id := some "R",
       service_id := some "X", delta := 29100 } : DRow) ∈
        kept_departures [stGood] [tripT] ∅ "S" 0 ∧
      (upcoming_departures [stGood] [tripT] ∅ "S" 0).length ≤ 50 :=
  ⟨((c4_departure_projection [stGood] [tripT] ∅ "S" 0).1 _).mpr
      (by decide),
    (c4_departure_projection [stGood] [tripT] ∅ "S" 0).2.2.2⟩

/-- C5 counterexample: the claim says a row with an unparsable
departure_time never appears in the projector's output.  In the code
the sentinel 999,999 is the row's *delta* (ZET.py line 485), and
999999 ≥ −300 passes the filter of line 486, so the row `stBad`
(departure_time "bogus") does appear in the output. -/
theorem c5_counterexample :
    time_str_to_seconds "bogus" = none ∧
      (upcoming_departures [stBad] [tripT] ∅ "S" 0).map
        (fun d => d.departure_time) = [some "bogus"] := by
  decide

/-- C5 (amended): a merged row whose departure_time is unparsable
(dep_sec None) gets the sentinel delta 999,999; it passes the
delta ≥ −300 filter and so belongs to the kept, delta-sorted rows — it
sorts after every timely departure but is only excluded from the final
output by the 50-row truncation, not by the filter. -/
theorem c5_unparsable_sentinel (stop_times : List StopTimeRow)
    (trips : List TripRow) (active : Finset String) (sid : String)
    (sec : Int) (d : DRow)
    (hd : d ∈ departure_rows stop_times trips active sid sec)
    (hnone : d.dep_sec = none) :
    d.delta = 999999 ∧
      d ∈ kept_departures stop_times trips active sid sec := by
  have hdelta : d.delta = 999999 := by
    have hd' := hd
    simp only [departure_rows, add_delta, List.mem_map] at hd'
    obtain ⟨m, hm, rfl⟩ := hd'
    simp only at hnone
    simp [hnone]
  refine ⟨hdelta, ?_⟩
  simp [kept_departures, List.mem_insertionSort, List.mem_filter, hd,
    hdelta]

/-- C5 witness: the "bogus" row of `stBad` receives delta 999,999 and
is among the kept departures. -/
theorem c5_unparsable_sentinel_witness :
    ({ trip_id := "T", stop_id := "S", departure_time := some "bogus",
       dep_sec := none, route_id := some "R", service_id := some "X",
       delta := 999999 } : DRow).delta = 999999 ∧
      ({ trip_id := "T", stop_id := "S", departure_time := some "bogus",
         dep_sec := none, route_id := some "R", service_id := some "X",
         delta := 999999 } : DRow) ∈
        kept_departures [stBad] [tripT] ∅ "S" 0 :=
  c5_unparsable_sentinel [stBad] [tripT] ∅ "S" 0 _ (by decide)
    (by decide)

/-- C9: with an empty active-service set no calendar filter is applied —
the schedule builder keeps every trip of the route and the departure
projector keeps every merged row — while a non-empty active set
restricts each to the rows whose service_id lies in the set. -/
theorem c9_empty_active_means_no_filter :
    (∀ (tl : List TripRow) (rid : String),
      selected_trips tl rid ∅ =
        tl.filter (fun t => decide (t.route_id = some rid))) ∧
    (∀ (tl : List TripRow) (rid : String) (active : Finset String),
      active ≠ ∅ →
      selected_trips tl rid active =
        (tl.filter (fun t => decide (t.route_id = some rid))).filter
          (fun t =>
            match t.service_id with
            | some s => decide (s ∈ active)
            | none => false)) ∧
    (∀ rows : List MRow, apply_active_filter ∅ rows = rows) ∧
    (∀ (active : Finset String) (rows : List MRow), active ≠ ∅ →
      apply_active_filter active rows =
        rows.filter (fun m =>
          match m.service_id with
          | some s => decide (s ∈ active)
          | none => false)) := by
  refine ⟨?_, ?_, ?_, ?_⟩
  · intro tl rid
    simp [selected_trips]
  · intro tl rid active ha
    simp [selected_trips, ha]
  · intro rows
    simp [apply_active_filter]
  · intro active rows ha
    simp [apply_active_filter, ha]

/-- C9 witness: with the non-empty active set {"X"}, the row of
service "Y" is subjected to (and dropped by) the isin filter. -/
theorem c9_empty_active_means_no_filter_witness :
    apply_active_filter activeX [mrowY] =
      [mrowY].filter (fun m =>
        match m.service_id with
        | some s => decide (s ∈ activeX)
        | none => false) :=
  c9_empty_active_means_no_filter.2.2.2 activeX [mrowY] (by decide)

/-- Helper: `str.lower()` of a non-empty string is non-empty. -/
theorem pyLower_ne_empty {s : String} (h : s ≠ "") : pyLower s ≠ "" := by
  intro hc
  apply h
  obtain ⟨data⟩ := s
  simp only [pyLower, List.asString] at hc
  have hm : data.map Char.toLower = [] := by
    have := congrArg String.data hc
    simpa using this
  have hd : data = [] := List.map_eq_nil_iff.mp hm
  simp [hd]

/-- Helper: `correlate` is the in-order filter of the feed by
`entity_matched`, with each kept entity replaced by its match
record. -/
theorem correlate_eq_filter_map (feed : List FeedEntity)
    (trips : Option (List TripRow)) (r v s : Option String) :
    correlate feed trips r v s =
      (feed.filter (entity_matched trips r v s)).map mk_match := by
  induction feed with
  | nil => rfl
  | cons e rest ih =>
    simp only [correlate, List.filter_cons]
    by_cases h : entity_matched trips r v s e
    · simp [h, ih]
    · simp [h, ih]

/-- C7: with a route filter (a non-empty route_id string, the other
filters absent), `correlate` returns exactly the match records of the
entities whose resolved trip descriptor (trip-update's trip preferred,
else the vehicle's, else none) has a trip_id mapping to the target
route_id in the static trip→route dictionary, in original feed
order. -/
theorem c7_route_filter (feed : List FeedEntity) (tl : List TripRow)
    (rid : String) (h : rid ≠ "") :
    correlate feed (some tl) (some rid) none none =
      (feed.filter (fun e =>
        match (resolve_trip e).map (·.trip_id) with
        | some tid =>
          decide (trip_to_route_dict (some tl) tid = some (some rid))
        | none => false)).map mk_match := by
  rw [correlate_eq_filter_map]
  congr 1
  apply List.filter_congr
  intro e _
  simp [entity_matched, truthy, h]

/-- C7 witness: filtering the three-entity sample feed by route "R1"
yields exactly the record of entity "1", whose trip "T1" is on "R1". -/
theorem c7_route_filter_witness :
    correlate [entV, entOther, entBare] (some tripsRT) (some "R1")
        none none = [mk_match entV] :=
  (c7_route_filter [entV, entOther, entBare] tripsRT "R1"
    (by decide)).trans (by decide)

/-- C8: with a vehicle filter (a non-empty vehicle_id, route filter
absent), `correlate` matches an entity iff it has a vehicle
sub-message whose vehicle id equals the target case-insensitively;
entities without a vehicle sub-message never match. -/
theorem c8_vehicle_filter (feed : List FeedEntity)
    (trips : Option (List TripRow)) (vid : String) (h : vid ≠ "") :
    correlate feed trips none (some vid) none =
      (feed.filter (fun e =>
        match e.vehicle with
        | some v =>
          match v.vehicle with
          | some vd => decide (pyLower vd.id = pyLower vid)
          | none => false
        | none => false)).map mk_match := by
  rw [correlate_eq_filter_map]
  congr 1
  apply List.filter_congr
  intro e _
  symm
  simp only [entity_matched, truthy]
  cases hv : e.vehicle with
  | none => simp
  | some v =>
    cases hvd : v.vehicle with
    | none => simp [truthy, hvd]
    | some vd =>
      simp [truthy, h, hvd]
      by_cases hid : vd.id = ""
      · have hne : ¬ pyLower "" = pyLower vid := fun hc =>
          pyLower_ne_empty h hc.symm
        simp [hid, hne]
      · simp [hid]

/-- C8 witness: the filter "zg-8801-gr" matches exactly the entity
carrying vehicle id "ZG-8801-GR" (case-insensitively), and no other. -/
theorem c8_vehicle_filter_witness :
    correlate [entV, entOther, entBare] none none (some "zg-8801-gr")
        none = [mk_match entV] :=
  (c8_vehicle_filter [entV, entOther, entBare] none "zg-8801-gr"
    (by decide)).trans (by decide)

/-- C10: when no filter criterion is supplied (route_id, vehicle_id and
stop_id all absent), `correlate` returns the empty list for every feed
and every trips table. -/
theorem c10_no_filter_no_match (feed : List FeedEntity)
    (trips : Option (List TripRow)) :
    correlate feed trips none none none = [] := by
  induction feed with
  | nil => rfl
  | cons e rest ih =>
    simp [correlate, entity_matched, truthy, ih]
